import Mathlib

/-!
Verification of the jam-nodes schema-introspection engine, execution contract
and integration-node executors, as a shallow embedding of the TypeScript
sources in Lean 4.

Conventions used throughout:
* JavaScript runtime values are modelled by `Value` (JSON-like, plus
  `undefined`); JS numbers that the code only ever treats as integers are
  modelled by `Int`.
* Zod schema internals (`schema._def` trees) are modelled by the closed
  tagged-variant type `ZodDef`; an unrecognized variant is `zOther`
  (the `default` arm of every `switch` on `typeName`).
* Impure JS primitives (network calls via `fetchWithRetry`/`generateText`,
  `new Date()`, `Date.now()`, regexp matching and `JSON.parse` on
  dynamically-typed data) are passed in as explicit oracle parameters, so
  every definition is a total computable function of its inputs.
* A thrown JS exception is modelled by `Except.error`; an executor whose
  promise resolves (to a success or failure `Result`) is `Except.ok`.
-/

namespace JamNodes

/-! ## JSON-like runtime values -/

/-- A JavaScript runtime value as produced and consumed by the engine:
`null`, `undefined`, booleans, (integer) numbers, strings, arrays and
plain objects with insertion-ordered string keys. -/
inductive Value where
  | vNull
  | vUndefined
  | vBool (b : Bool)
  | vNum (n : Int)
  | vStr (s : String)
  | vArr (elems : List Value)
  | vObj (fields : List (String × Value))

/-! ## The Zod schema description model

`ZodDef` is the tagged-variant representation of `schema._def` that both
traversals inspect via `def.typeName`.  `zDefault` stores the result of
calling the schema's `defaultValue()` thunk; `zDiscriminatedUnion` stores
the option map's values in iteration order; `zOther` is any variant not
recognized by the `switch` statements of the source. -/
inductive ZodDef where
  | zString
  | zNumber
  | zBoolean
  | zNull
  | zUndefined
  | zLiteral (value : Value)
  | zEnum (values : List String)
  | zNativeEnum (values : List Value)
  | zArray (item : ZodDef)
  | zObject (shape : List (String × ZodDef))
  | zUnion (options : List ZodDef)
  | zDiscriminatedUnion (options : List ZodDef)
  | zOptional (innerType : ZodDef)
  | zNullable (innerType : ZodDef)
  | zDefault (innerType : ZodDef) (defaultValue : Value)
  | zRecord (valueType : ZodDef)
  | zTuple (items : List ZodDef)
  | zPromise (innerType : ZodDef)
  | zEffects (schema : ZodDef)
  | zUnknown
  | zAny
  | zOther

/-- `true` exactly on `ZodObject` defs. -/
def ZodDef.isObjectDef : ZodDef → Bool
  | .zObject _ => true
  | _ => false

/-! ## Mock synthesis, CLI playground
(`packages/playground/src/utils/mock-generator.ts`, `generateFromDef`). -/

mutual

/-- `generateFromDef` of `packages/playground/src/utils/mock-generator.ts`:
the recursive mock-value synthesizer of the CLI playground.  Each arm
mirrors one `case` of the source `switch (typeName)`; the final arm is the
source's `default: return null`.  An empty `ZodEnum`/`ZodNativeEnum`
yields `undefined` (JS `values[0]` on an empty array). -/
def generateFromDef : ZodDef → Value
  | .zString => .vStr "mock_string"
  | .zNumber => .vNum 42
  | .zBoolean => .vBool true
  | .zNull => .vNull
  | .zUndefined => .vUndefined
  | .zLiteral value => value
  | .zEnum [] => .vUndefined
  | .zEnum (v :: _) => .vStr v
  | .zNativeEnum [] => .vUndefined
  | .zNativeEnum (v :: _) => v
  | .zArray item => .vArr [generateFromDef item, generateFromDef item]
  | .zObject shape => .vObj (generateObjectFields shape)
  | .zUnion [] => .vNull
  | .zUnion (o :: _) => generateFromDef o
  | .zDiscriminatedUnion [] => .vNull
  | .zDiscriminatedUnion (o :: _) => generateFromDef o
  | .zOptional innerType => generateFromDef innerType
  | .zNullable innerType => generateFromDef innerType
  | .zDefault _ defaultValue => defaultValue
  | .zRecord valueType =>
      .vObj [("key1", generateFromDef valueType), ("key2", generateFromDef valueType)]
  | .zTuple items => .vArr (generateTupleItems items)
  | .zPromise innerType => generateFromDef innerType
  | .zEffects schema => generateFromDef schema
  | .zUnknown => .vObj [("mock", .vStr "data")]
  | .zAny => .vObj [("mock", .vStr "data")]
  | .zOther => .vNull

/-- The `ZodObject` arm's `for (const [key, fieldSchema] of Object.entries(shape))`
loop: synthesize every field in declaration order. -/
def generateObjectFields : List (String × ZodDef) → List (String × Value)
  | [] => []
  | (key, d) :: rest => (key, generateFromDef d) :: generateObjectFields rest

/-- The `ZodTuple` arm's `items.map((item) => generateFromDef(item._def))`. -/
def generateTupleItems : List ZodDef → List Value
  | [] => []
  | d :: rest => generateFromDef d :: generateTupleItems rest

end

/-! ## Mock synthesis, web playground
(`packages/playground-web/src/lib/utils.ts`, `generateFromDef`).
This copy recognizes fewer variants (no native enum, unions, record,
tuple, promise, effects or unknown/any cases — they fall to the
`default: return null` arm) and, crucially, its `ZodArray` arm
produces a one-element array. -/

mutual

/-- `generateFromDef` of `packages/playground-web/src/lib/utils.ts`. -/
def generateFromDefWeb : ZodDef → Value
  | .zString => .vStr "mock_string"
  | .zNumber => .vNum 42
  | .zBoolean => .vBool true
  | .zNull => .vNull
  | .zUndefined => .vUndefined
  | .zLiteral value => value
  | .zEnum [] => .vUndefined
  | .zEnum (v :: _) => .vStr v
  | .zArray item => .vArr [generateFromDefWeb item]
  | .zObject shape => .vObj (generateObjectFieldsWeb shape)
  | .zOptional innerType => generateFromDefWeb innerType
  | .zNullable innerType => generateFromDefWeb innerType
  | .zDefault _ defaultValue => defaultValue
  | _ => .vNull

/-- The web copy's `ZodObject` field loop. -/
def generateObjectFieldsWeb : List (String × ZodDef) → List (String × Value)
  | [] => []
  | (key, d) :: rest => (key, generateFromDefWeb d) :: generateObjectFieldsWeb rest

end

/-! ## Named mock overrides, CLI playground
(`packages/playground/src/utils/mock-generator.ts`, `generateMockOutput`).

The source rebuilds the `customMocks` object literal on every call; the two
`createdAt: new Date().toISOString()` properties therefore capture the
timestamp of the *call*.  That impure timestamp is the explicit `now`
parameter below. -/

/-- The `customMocks` table of `generateMockOutput`, keyed by node type, with
`now` standing for `new Date().toISOString()` at call time. -/
def customMocks (now : String) : List (String × Value) :=
  [ ("conditional", .vObj
      [ ("conditionMet", .vBool true)
      , ("selectedBranch", .vStr "true") ])
  , ("end", .vObj
      [ ("terminated", .vBool true)
      , ("reason", .vStr "Workflow completed successfully") ])
  , ("delay", .vObj
      [ ("delayed", .vBool true)
      , ("delayMs", .vNum 1000) ])
  , ("map", .vObj
      [ ("result", .vArr
          [ .vObj [("transformed", .vStr "item1")]
          , .vObj [("transformed", .vStr "item2")] ]) ])
  , ("filter", .vObj
      [ ("result", .vArr [.vObj [("passes", .vBool true)]])
      , ("originalCount", .vNum 3)
      , ("filteredCount", .vNum 1) ])
  , ("http_request", .vObj
      [ ("status", .vNum 200)
      , ("data", .vObj [("message", .vStr "Mock response")])
      , ("headers", .vObj [("content-type", .vStr "application/json")]) ])
  , ("search_contacts", .vObj
      [ ("contacts", .vArr
          [ .vObj
              [ ("id", .vStr "mock_contact_1")
              , ("name", .vStr "John Doe")
              , ("firstName", .vStr "John")
              , ("lastName", .vStr "Doe")
              , ("email", .vStr "john.doe@example.com")
              , ("title", .vStr "CTO")
              , ("company", .vStr "Example Corp")
              , ("linkedinUrl", .vStr "https://linkedin.com/in/johndoe")
              , ("location", .vStr "San Francisco, CA") ]
          , .vObj
              [ ("id", .vStr "mock_contact_2")
              , ("name", .vStr "Jane Smith")
              , ("firstName", .vStr "Jane")
              , ("lastName", .vStr "Smith")
              , ("email", .vStr "jane.smith@example.com")
              , ("title", .vStr "VP Engineering")
              , ("company", .vStr "Tech Startup")
              , ("linkedinUrl", .vStr "https://linkedin.com/in/janesmith")
              , ("location", .vStr "New York, NY") ] ])
      , ("totalFound", .vNum 2) ])
  , ("reddit_monitor", .vObj
      [ ("posts", .vArr
          [ .vObj
              [ ("id", .vStr "mock_post_1")
              , ("title", .vStr "Mock Reddit Post")
              , ("author", .vStr "mock_user")
              , ("subreddit", .vStr "technology")
              , ("score", .vNum 150)
              , ("url", .vStr "https://reddit.com/r/technology/mock")
              , ("createdAt", .vStr now) ] ]) ])
  , ("twitter_monitor", .vObj
      [ ("posts", .vArr
          [ .vObj
              [ ("id", .vStr "mock_tweet_1")
              , ("text", .vStr "Mock tweet content")
              , ("author", .vStr "mockuser")
              , ("likes", .vNum 50)
              , ("retweets", .vNum 10)
              , ("createdAt", .vStr now) ] ]) ])
  , ("social_keyword_generator", .vObj
      [ ("keywords", .vArr
          [.vStr "ai", .vStr "machine learning", .vStr "automation", .vStr "workflow"])
      , ("hashtags", .vArr [.vStr "#AI", .vStr "#ML", .vStr "#Automation"]) ])
  , ("draft_emails", .vObj
      [ ("drafts", .vArr
          [ .vObj
              [ ("to", .vStr "john.doe@example.com")
              , ("subject", .vStr "Mock Email Subject")
              , ("body", .vStr "This is a mock email body for testing purposes.") ] ]) ]) ]

/-- `generateMockOutput(nodeType, outputSchema)` of the CLI playground: consult
the per-call `customMocks` table first (`if (customMocks[nodeType])` — every
table value is a non-empty object, hence truthy), else fall back to
schema-based generation (`generateMockFromSchema` unwraps `schema._def` and
calls `generateFromDef`, so the fallback is `generateFromDef outputSchema`). -/
def generateMockOutput (now : String) (nodeType : String) (outputSchema : ZodDef) : Value :=
  match (customMocks now).lookup nodeType with
  | some v => v
  | none => generateFromDef outputSchema

/-- `getMockOutput(nodeType, outputSchema)` of
`packages/playground-web/src/lib/utils.ts`.  In the web playground the
override table `MOCK_OUTPUTS` is a module-level constant (its timestamps are
captured once at module load), so it is passed here as a fixed table. -/
def getMockOutput (mockOutputsTable : List (String × Value))
    (nodeType : String) (outputSchema : ZodDef) : Value :=
  match mockOutputsTable.lookup nodeType with
  | some v => v
  | none => generateFromDefWeb outputSchema

/-! ## Field derivation, web playground
(`packages/playground-web/src/components/InputForm.tsx`,
`extractFieldsFromSchema`). -/

/-- The `FieldConfig.type` classification of `InputForm.tsx` (the source also
declares a `'select'` and `'textarea'` option; `'textarea'` is what the spec
calls the `object` class). -/
inductive FieldType where
  | text
  | number
  | checkbox
  | select
  | textarea
  | array
deriving Repr, DecidableEq

/-- A derived form-field descriptor (`FieldConfig` of `InputForm.tsx`).
The source's optional `description` (Zod `.describe` metadata) is omitted:
no claim concerns it. -/
structure FieldConfig where
  name : String
  label : String
  type' : FieldType
  required : Bool
  default : Value
  options : Option (List String)

/-- `key.replace(/([A-Z])/g, ' $1')`: a space inserted before every ASCII
uppercase letter. -/
def insertCapSpaces (s : String) : String :=
  String.mk (s.data.foldr (fun c acc => if c.isUpper then ' ' :: c :: acc else c :: acc) [])

/-- `.replace(/^./, (s) => s.toUpperCase())`: first character upper-cased. -/
def capitalizeFirst (s : String) : String :=
  match s.data with
  | [] => ""
  | c :: cs => String.mk (c.toUpper :: cs)

/-- The human label attached to a derived field. -/
def humanLabel (key : String) : String :=
  capitalizeFirst (insertCapSpaces key)

/-- The per-field body of the `extractFieldsFromSchema` loop.  `exampleValue`
stands for the source's `getExampleValue(fieldName, fieldType, options)`
helper, which always returns some placeholder value keyed on the field
name (it is impure — two of its branches read the current date — and no
claim depends on its concrete output, so it is passed in as a parameter).

Unwrapping, exactly as in the source: a single `ZodOptional` or
`ZodDefault` layer clears `required` (and, for `ZodDefault`, supplies the
schema default); any other wrapper — in particular `ZodNullable` — is left
in place and classified as-is. -/
def extractField (exampleValue : String → FieldType → Option (List String) → Value)
    (key : String) (fieldDef : ZodDef) : FieldConfig :=
  let unwrapped : Bool × ZodDef × Option Value :=
    match fieldDef with
    | .zOptional innerType => (false, innerType, none)
    | .zDefault innerType v => (false, innerType, some v)
    | d => (true, d, none)
  let isRequired := unwrapped.1
  let innerDef := unwrapped.2.1
  let classified : FieldType × Option (List String) :=
    match innerDef with
    | .zNumber => (.number, none)
    | .zBoolean => (.checkbox, none)
    | .zEnum values => (.select, some values)
    | .zArray _ => (.array, none)
    | .zObject _ => (.textarea, none)
    | .zRecord _ => (.textarea, none)
    | _ => (.text, none)
  let fieldType := classified.1
  let options := classified.2
  let defaultValue : Value :=
    match unwrapped.2.2 with
    | some v => v
    | none => exampleValue key fieldType options
  { name := key
    label := humanLabel key
    type' := fieldType
    required := isRequired
    default := defaultValue
    options := options }

/-- `extractFieldsFromSchema(schema)`: only a `ZodObject` root yields fields
(`if (def.typeName !== 'ZodObject' || !def.shape) return fields`); its shape
is walked in declaration order. -/
def extractFieldsFromSchema
    (exampleValue : String → FieldType → Option (List String) → Value) :
    ZodDef → List FieldConfig
  | .zObject shape => shape.map (fun kv => extractField exampleValue kv.1 kv.2)
  | _ => []

/-! ## Prompt derivation, CLI
(`generatePromptsFromSchema` in the CLI UI module exported by
`packages/core`'s playground surface). -/

/-- The inquirer prompt type chosen per field. -/
inductive PromptType where
  | input
  | number
  | confirm
  | list
  | editor
deriving Repr, DecidableEq

/-- One derived prompt (element of `generatePromptsFromSchema`'s result).
`message` is `description || key` plus the required/optional suffix; the
`.describe` metadata is omitted as in `FieldConfig`, so the fallback `key`
is always used here. -/
structure PromptItem where
  name : String
  message : String
  ptype : PromptType
  promptDefault : Option Value
  choices : Option (List (String × Value))
  required : Bool

/-- The per-field body of the `generatePromptsFromSchema` loop. -/
def promptForField (pfx key : String) (fieldDef : ZodDef) : PromptItem :=
  let fullKey := if pfx = "" then key else pfx ++ "." ++ key
  let isOptional : Bool :=
    match fieldDef with
    | .zOptional _ => true
    | .zDefault _ _ => true
    | _ => false
  let unwrapped : ZodDef × Option Value :=
    match fieldDef with
    | .zOptional innerType => (innerType, none)
    | .zDefault innerType v => (innerType, some v)
    | d => (d, none)
  let innerDef := unwrapped.1
  let classified : PromptType × Option (List (String × Value)) :=
    match innerDef with
    | .zNumber => (.number, none)
    | .zBoolean => (.confirm, none)
    | .zEnum values => (.list, some (values.map (fun v => (v, Value.vStr v))))
    | .zArray _ => (.input, none)
    | .zObject _ => (.editor, none)
    | _ => (.input, none)
  { name := fullKey
    message := key ++ (if isOptional then " (optional)" else " *")
    ptype := classified.1
    promptDefault := unwrapped.2
    choices := classified.2
    required := !isOptional }

/-- `generatePromptsFromSchema(schema, prefix)`: prompts are generated only
when the root is a `ZodObject`; any other root yields the empty list. -/
def generatePromptsFromSchema (schema : ZodDef) (pfx : String) : List PromptItem :=
  match schema with
  | .zObject shape => shape.map (fun kv => promptForField pfx kv.1 kv.2)
  | _ => []

/-! ## The two unwrap disciplines, side by side (for the §4.1 wrapper-chain
agreement property).  Both definitions are read off the traversals above. -/

/-- The wrapper-chain unwrapping performed by mock synthesis
(`generateFromDef` recurses through `ZodOptional`/`ZodNullable`; a
`ZodDefault` is terminal — its stored value is returned without inspecting
the inner type). -/
def mockSynthesisUnwrap : ZodDef → ZodDef
  | .zOptional innerType => mockSynthesisUnwrap innerType
  | .zNullable innerType => mockSynthesisUnwrap innerType
  | d => d

/-- The unwrapping performed by field derivation (`extractFieldsFromSchema`
and `generatePromptsFromSchema` alike): exactly one layer, and only of
`ZodOptional` or `ZodDefault` — `ZodNullable` is never unwrapped. -/
def fieldDerivationUnwrap : ZodDef → ZodDef
  | .zOptional innerType => innerType
  | .zDefault innerType _ => innerType
  | d => d

/-- A def that is not an `Optional`/`Nullable`/`Default` wrapper. -/
def wrapperFree : ZodDef → Bool
  | .zOptional _ => false
  | .zNullable _ => false
  | .zDefault _ _ => false
  | _ => true

/-! ## Execution context and nested-path resolution
(`resolveNestedPath` closures in
`packages/playground-web/src/app/api/execute/route.ts` and the CLI run
command; the two are textually identical). -/

/-- The guard `current && typeof current === 'object'`: objects and arrays
pass; `null` is falsy (despite `typeof null === 'object'`), and strings,
numbers, booleans and `undefined` have a different `typeof`. -/
def isIndexable : Value → Bool
  | .vObj _ => true
  | .vArr _ => true
  | _ => false

/-- Property access `current[part]` on an indexable value: object key lookup
(first binding wins; the contexts built by the playgrounds carry uniquely
keyed objects), array access by decimal index string; a missing key is
`undefined`. -/
def jsGet (v : Value) (part : String) : Value :=
  match v with
  | .vObj fields => (fields.lookup part).getD .vUndefined
  | .vArr elems =>
      match part.toNat? with
      | some i => elems.getD i .vUndefined
      | none => .vUndefined
  | _ => .vUndefined

/-- The `for (const part of parts)` walk of `resolveNestedPath`: index while
the current value is indexable, otherwise return `undefined` immediately;
after the last segment, return whatever was reached. -/
def walkPath : List String → Value → Value
  | [], current => current
  | part :: rest, current =>
      if isIndexable current then walkPath rest (jsGet current part)
      else .vUndefined

/-- `path.split('.')`, character by character: splitting on a single
separator character, where `""` splits to `[""]` and adjacent separators
produce empty segments — exactly JS `String.prototype.split` with a
one-character separator. -/
def splitOnCharAux (sep : Char) : List Char → List Char → List String
  | [], acc => [String.mk acc.reverse]
  | c :: cs, acc =>
      if c = sep then String.mk acc.reverse :: splitOnCharAux sep cs []
      else splitOnCharAux sep cs (c :: acc)

/-- `path.split('.')`. -/
def splitDots (path : String) : List String :=
  splitOnCharAux '.' path.data []

/-- `resolveNestedPath(path)`: split the path on `'.'` and walk
`context.variables` segment by segment; the absent marker is `undefined`.
(`vars` is the source's `variables` mapping; `variables` is reserved in
Lean.) -/
def resolveNestedPath (vars : List (String × Value)) (path : String) : Value :=
  walkPath (splitDots path) (.vObj vars)

/-! ## Resilient fetch -/

/-- Modelled from the spec: the implementation of `fetchWithRetry`
(`packages/nodes/src/utils/http.ts`) is not among the sources — only its
re-export and call sites are — so the §4.2/§6 contract is modelled here.
One physical attempt either fails at network level (including a timeout,
which §4.2 treats as a retry-eligible failure) or yields a response with a
status code. -/
inductive AttemptOutcome where
  | networkError (message : String)
  | response (status : Nat)

/-- Modelled from the spec: the retry policy object
`{maxRetries, backoffMs, timeoutMs}` passed per call site. -/
structure RetryPolicy where
  maxRetries : Nat
  backoffMs : Nat
  timeoutMs : Nat

/-- Modelled from the spec: the returned handle exposes `ok` and `status`
(the lazy `text()`/`json()` accessors carry no logic of their own and are
omitted). -/
structure ResponseHandle where
  status : Nat
  ok : Bool

/-- Modelled from the spec: the typed error raised after retry exhaustion,
carrying the last observed status/message. -/
structure FetchRetryError where
  message : String
deriving Repr, DecidableEq

/-- Modelled from the spec: retry eligibility — network-level failures and
server error responses (status ≥ 500) are retried; anything else is
returned to the caller. -/
def retryEligible : AttemptOutcome → Bool
  | .networkError _ => true
  | .response status => 500 ≤ status

/-- Modelled from the spec: the typed error derived from the last observed
attempt. -/
def lastAttemptError : AttemptOutcome → FetchRetryError
  | .networkError message => ⟨message⟩
  | .response status => ⟨"HTTP " ++ toString status⟩

/-- Modelled from the spec: the attempt loop of `fetchWithRetry`.  `attempts`
is the oracle giving the outcome of the n-th physical attempt; the second
component of the result counts physical attempts performed.  A
non-retryable response is returned immediately as a handle; a retryable
failure consumes one retry or, with none left, raises the typed error. -/
def fetchAttemptLoop (attempts : Nat → AttemptOutcome) :
    Nat → Nat → Except FetchRetryError ResponseHandle × Nat
  | idx, remaining =>
      let outcome := attempts idx
      if retryEligible outcome then
        match remaining with
        | 0 => (.error (lastAttemptError outcome), idx + 1)
        | r + 1 => fetchAttemptLoop attempts (idx + 1) r
      else
        match outcome with
        | .response status => (.ok ⟨status, decide (200 ≤ status ∧ status < 300)⟩, idx + 1)
        | .networkError message => (.error ⟨message⟩, idx + 1)

/-- Modelled from the spec: `fetchWithRetry(url, requestSpec, policy)` — a
single logical call performing up to `policy.maxRetries + 1` physical
attempts (`backoffMs`/`timeoutMs` shape the attempts themselves, which the
oracle already accounts for). -/
def fetchWithRetry (attempts : Nat → AttemptOutcome) (policy : RetryPolicy) :
    Except FetchRetryError ResponseHandle × Nat :=
  fetchAttemptLoop attempts 0 policy.maxRetries

/-! ## The node execution contract -/

/-- The uniform success/failure envelope every executor resolves to
(`NodeExecutionResult` of `packages/core`):
`{success: true, output}` or `{success: false, error}`. -/
inductive NodeExecutionResult (α : Type) where
  | success (output : α)
  | failure (error : String)

/-- The execution context passed to every executor.  `vars` is the source's
`variables` mapping (`variables` is reserved in Lean); `credentials` maps a
service name to its credential fields.  The injected `services` handles and
`resolveNestedPath` closure are derived per execution and carry no state of
their own. -/
structure NodeExecutionContext where
  userId : String
  workflowExecutionId : String
  vars : List (String × Value)
  credentials : List (String × List (String × String))

/-- The access pattern `context.credentials?.<service>?.<field>` followed by
the executors' `if (!apiKey)` truthiness guard: a missing service, a missing
field and an empty-string value all count as absent. -/
def NodeExecutionContext.credentialFor (ctx : NodeExecutionContext)
    (service fieldName : String) : Option String :=
  match (ctx.credentials.lookup service).bind (fun fields => fields.lookup fieldName) with
  | some s => if s = "" then none else some s
  | none => none

/-- `context.variables['senderName'] as string | undefined` followed by
`if (!senderName)`: present only when the variable is a non-empty string
(the source's unchecked cast would also let a truthy non-string through;
no caller in the repository stores a non-string there). -/
def NodeExecutionContext.senderNameVar (ctx : NodeExecutionContext) : Option String :=
  match ctx.vars.lookup "senderName" with
  | some (.vStr s) => if s = "" then none else some s
  | _ => none

/-- JS `a || b` on an optional string: `null`/`undefined` and `""` are
falsy. -/
def jsOrStr (o : Option String) (d : String) : String :=
  match o with
  | some s => if s = "" then d else s
  | none => d

/-- `[...new Set(list)]`: deduplicate preserving first occurrences
(accumulator = the set of strings already emitted). -/
def jsSetDedupAux (seen : List String) : List String → List String
  | [] => []
  | x :: xs => if x ∈ seen then jsSetDedupAux seen xs else x :: jsSetDedupAux (x :: seen) xs

/-- `[...new Set(list)]`. -/
def jsSetDedup (l : List String) : List String :=
  jsSetDedupAux [] l

/-- `Math.round(sum / len)` for an integer sum and a positive length:
`Math.round` is floor(x + 1/2), i.e. the floored division
`(2 * sum + len) / (2 * len)`. -/
def jsRoundRatio (sum : Int) (len : Nat) : Int :=
  Int.fdiv (2 * sum + len) (2 * len)

/-! ## Social keyword generator node
(`packages/nodes/src/ai/keyword-generator.ts`).

`generateText` performs the Anthropic HTTP round-trip (throwing on a
non-ok response after retries); it is modelled by the oracle
`gen : Nat → Except String String` giving, per sequential call, either the
response text or the thrown error's message.  The regexp match
`responseText.match(/\{[\s\S]*\}/)` and the subsequent typed `JSON.parse`
are the oracles `jsonObjectMatch` and `parseKeywordJson` (a parse result
that lacks the expected structure is folded into the parse error, which
lands in the same failure path via the outer catch). -/

/-- `SocialKeywordGeneratorInput`: topic plus optional user keywords. -/
structure SocialKeywordGeneratorInput where
  topic : String
  userKeywords : Option (List String)

/-- The `twitter` portion of the parsed keyword response and output. -/
structure TwitterKeywords where
  keywords : List String
  searchQuery : String

/-- The `reddit` portion. -/
structure RedditKeywords where
  keywords : List String

/-- The `linkedin` portion. -/
structure LinkedInKeywords where
  keywords : List String
  searchQueries : List String

/-- The shape the executor casts the parsed JSON response to. -/
structure ParsedKeywordResponse where
  twitter : TwitterKeywords
  reddit : RedditKeywords
  linkedin : LinkedInKeywords

/-- `SocialKeywordGeneratorOutput`. -/
structure SocialKeywordGeneratorOutput where
  topic : String
  twitter : TwitterKeywords
  reddit : RedditKeywords
  linkedin : LinkedInKeywords
  allKeywords : List String

/-- The body of `socialKeywordGeneratorNode.executor` inside its outer
`try`: `Except.error` is an exception propagating towards the outer catch,
`Except.ok` a returned `Result`. -/
def socialKeywordGeneratorBody (gen : Nat → Except String String)
    (jsonObjectMatch : String → Option String)
    (parseKeywordJson : String → Except String ParsedKeywordResponse)
    (input : SocialKeywordGeneratorInput) (ctx : NodeExecutionContext) :
    Except String (NodeExecutionResult SocialKeywordGeneratorOutput) :=
  match ctx.credentialFor "anthropic" "apiKey" with
  | none => .ok (.failure
      "Anthropic API key not configured. Please provide context.credentials.anthropic.apiKey.")
  | some _ =>
    match gen 0 with
    | .error e => .error e
    | .ok responseText =>
      match jsonObjectMatch responseText with
      | none => .ok (.failure "Could not parse keyword response")
      | some matched =>
        match parseKeywordJson matched with
        | .error _ => .ok (.failure "Failed to parse keyword JSON response")
        | .ok parsed =>
          let userKw := input.userKeywords.getD []
          let mergedTwitterKeywords := jsSetDedup (parsed.twitter.keywords ++ userKw)
          let mergedRedditKeywords := jsSetDedup (parsed.reddit.keywords ++ userKw)
          let mergedLinkedInKeywords := jsSetDedup (parsed.linkedin.keywords ++ userKw)
          let allKeywords := jsSetDedup
            (mergedTwitterKeywords ++ mergedRedditKeywords ++ mergedLinkedInKeywords)
          .ok (.success
            { topic := input.topic
            , twitter :=
                { keywords := mergedTwitterKeywords, searchQuery := parsed.twitter.searchQuery }
            , reddit := { keywords := mergedRedditKeywords }
            , linkedin :=
                { keywords := mergedLinkedInKeywords
                , searchQueries := parsed.linkedin.searchQueries }
            , allKeywords := allKeywords })

/-- `socialKeywordGeneratorNode.executor`: the body wrapped in the outer
`try { ... } catch (error) { return {success: false, error: message} }`. -/
def socialKeywordGeneratorExecutor (gen : Nat → Except String String)
    (jsonObjectMatch : String → Option String)
    (parseKeywordJson : String → Except String ParsedKeywordResponse)
    (input : SocialKeywordGeneratorInput) (ctx : NodeExecutionContext) :
    Except String (NodeExecutionResult SocialKeywordGeneratorOutput) :=
  match socialKeywordGeneratorBody gen jsonObjectMatch parseKeywordJson input ctx with
  | .ok r => .ok r
  | .error e => .ok (.failure e)

/-! ## Draft emails node (`packages/nodes/src/ai/draft-emails.ts`).

The prompt builders and cleaners (`buildEmailPrompt`, `buildSubjectPrompt`,
`cleanEmailBody`, `cleanSubjectLine`, from the prompts module whose source
is not included) only shape strings; the prompts are absorbed into the
sequential `gen` oracle and the cleaners are passed as parameters.
`Date.now()` in the draft id is the parameter `now`. -/

/-- A contact (`ContactSchema`): the executor reads `id`, `name`, `email`
(skipping the contact when falsy, i.e. absent or empty), `title` and
`company`. -/
structure Contact where
  id : String
  name : String
  email : String
  title : Option String
  company : Option String
deriving Repr, DecidableEq

/-- `DraftEmailsInput`. -/
structure DraftEmailsInput where
  contacts : List Contact
  productDescription : String
  emailTemplate : Option String

/-- One drafted email (`DraftEmailInfo`). -/
structure DraftEmailInfo where
  id : String
  toEmail : String
  toName : String
  toCompany : String
  toTitle : String
  subject : String
  body : String
  status : String
deriving Repr, DecidableEq

/-- `DraftEmailsOutput`. -/
structure DraftEmailsOutput where
  emails : List DraftEmailInfo
  draftedCount : Nat

/-- The `for (const contact of input.contacts)` loop: a falsy email skips
the contact outright; the two `generateText` calls sit inside the inner
`try { ... } catch { /* continue with other contacts */ }`, so a thrown
call skips just that contact (consuming the oracle calls actually made)
and the loop continues. -/
def draftContactsLoop (gen : Nat → Except String String)
    (cleanEmailBody cleanSubjectLine : String → String) (now : Nat) :
    Nat → List Contact → List DraftEmailInfo
  | _, [] => []
  | callIdx, contact :: rest =>
    if contact.email = "" then
      draftContactsLoop gen cleanEmailBody cleanSubjectLine now callIdx rest
    else
      match gen callIdx with
      | .error _ => draftContactsLoop gen cleanEmailBody cleanSubjectLine now (callIdx + 1) rest
      | .ok rawBody =>
        match gen (callIdx + 1) with
        | .error _ => draftContactsLoop gen cleanEmailBody cleanSubjectLine now (callIdx + 2) rest
        | .ok rawSubject =>
          { id := "draft-" ++ contact.id ++ "-" ++ toString now
          , toEmail := contact.email
          , toName := contact.name
          , toCompany := contact.company.getD ""
          , toTitle := contact.title.getD ""
          , subject := cleanSubjectLine rawSubject
          , body := cleanEmailBody rawBody
          , status := "draft" }
            :: draftContactsLoop gen cleanEmailBody cleanSubjectLine now (callIdx + 2) rest

/-- The body of `draftEmailsNode.executor` inside its outer `try`: missing
API key or missing `senderName` variable return failure `Result`s; the
drafting loop itself cannot throw past its inner catch. -/
def draftEmailsBody (gen : Nat → Except String String)
    (cleanEmailBody cleanSubjectLine : String → String) (now : Nat)
    (input : DraftEmailsInput) (ctx : NodeExecutionContext) :
    Except String (NodeExecutionResult DraftEmailsOutput) :=
  match ctx.credentialFor "anthropic" "apiKey" with
  | none => .ok (.failure
      "Anthropic API key not configured. Please provide context.credentials.anthropic.apiKey.")
  | some _ =>
    match ctx.senderNameVar with
    | none => .ok (.failure
        "Please set senderName in context.variables before creating email campaigns.")
    | some _ =>
      let emails := draftContactsLoop gen cleanEmailBody cleanSubjectLine now 0 input.contacts
      .ok (.success { emails := emails, draftedCount := emails.length })

/-- `draftEmailsNode.executor`: the body wrapped in the outer try/catch. -/
def draftEmailsExecutor (gen : Nat → Except String String)
    (cleanEmailBody cleanSubjectLine : String → String) (now : Nat)
    (input : DraftEmailsInput) (ctx : NodeExecutionContext) :
    Except String (NodeExecutionResult DraftEmailsOutput) :=
  match draftEmailsBody gen cleanEmailBody cleanSubjectLine now input ctx with
  | .ok r => .ok r
  | .error e => .ok (.failure e)

/-! ## Social AI analyze node (`analyze-posts.ts`).

The prompts module (`buildAnalysisPrompt`, `normalizeSentiment`,
`normalizeUrgency`, `MIN_RELEVANCE_SCORE`, `ANALYSIS_BATCH_SIZE`) is not
among the sources; the two normalizers and the two constants are therefore
parameters, and every theorem below holds for all their instantiations.
The per-batch `generateText` call is the sequential oracle `gen` (a thrown
call is *not* inside any inner try here, so it aborts the batch loop and
reaches the outer catch); the regexp match `/\[[\s\S]*\]/` and the typed
`JSON.parse` are the oracles `jsonArrayMatch` and `parsePostAnalyses`. -/

/-- A social post as the executor sees it: only `id` is inspected
(`batch.find((p) => p.id === analysis.id)`); the remaining fields are
spread unchanged into the analyzed post and are represented by `platform`
and `content`. -/
structure SocialPost where
  id : String
  platform : String
  content : String
deriving Repr, DecidableEq

/-- `SocialAiAnalyzeInput`: per-platform optional post arrays plus the
topic and user intent driving the prompt. -/
structure SocialAiAnalyzeInput where
  twitterPosts : Option (List SocialPost)
  redditPosts : Option (List SocialPost)
  linkedinPosts : Option (List SocialPost)
  posts : Option (List SocialPost)
  topic : String
  userIntent : String

/-- One element of the JSON array the executor casts the AI response to;
`aiSummary` and `matchedKeywords` are read with `|| ''` / `|| []`
defaults, hence optional here. -/
structure PostAnalysis where
  id : String
  relevanceScore : Int
  sentiment : String
  isComplaint : Bool
  urgencyLevel : String
  aiSummary : Option String
  matchedKeywords : Option (List String)
deriving Repr, DecidableEq

/-- An analyzed post: `{...originalPost, relevanceScore, sentiment, ...}` —
the original post's fields (`post`) merged with the normalized analysis. -/
structure AnalyzedPost where
  post : SocialPost
  relevanceScore : Int
  sentiment : String
  isComplaint : Bool
  urgencyLevel : String
  aiSummary : String
  matchedKeywords : List String
deriving Repr, DecidableEq

/-- `SocialAiAnalyzeOutput`. -/
structure SocialAiAnalyzeOutput where
  analyzedPosts : List AnalyzedPost
  highPriorityPosts : List AnalyzedPost
  complaints : List AnalyzedPost
  totalAnalyzed : Nat
  highPriorityCount : Nat
  complaintCount : Nat
  averageRelevance : Int

/-- The batching loop header
`for (let i = 0; i < allPosts.length; i += ANALYSIS_BATCH_SIZE)` with
`allPosts.slice(i, i + ANALYSIS_BATCH_SIZE)`, as successive chunks.  The
fuel argument (initially the list length) bounds the recursion; for any
positive `batchSize` it is never exhausted, and the degenerate
`batchSize = 0` — on which the JS loop would not terminate — is excluded
by hypothesis wherever it matters. -/
def chunkListAux (batchSize : Nat) : Nat → List α → List (List α)
  | 0, _ => []
  | _, [] => []
  | fuel + 1, l => l.take batchSize :: chunkListAux batchSize fuel (l.drop batchSize)

/-- `allPosts` cut into batches of `batchSize`. -/
def chunkList (batchSize : Nat) (l : List α) : List (List α) :=
  chunkListAux batchSize l.length l

/-- The `for (const analysis of analyzed)` merge loop: an analysis is kept
only when its `id` finds the original post in the batch *and* its
relevance score reaches `MIN_RELEVANCE_SCORE` (`minRelevanceScore`). -/
def mergeAnalyses (normalizeSentiment normalizeUrgency : String → String)
    (minRelevanceScore : Int) (batch : List SocialPost) :
    List PostAnalysis → List AnalyzedPost
  | [] => []
  | analysis :: rest =>
    let tail := mergeAnalyses normalizeSentiment normalizeUrgency minRelevanceScore batch rest
    match batch.find? (fun p => p.id == analysis.id) with
    | some originalPost =>
      if minRelevanceScore ≤ analysis.relevanceScore then
        { post := originalPost
        , relevanceScore := analysis.relevanceScore
        , sentiment := normalizeSentiment analysis.sentiment
        , isComplaint := analysis.isComplaint
        , urgencyLevel := normalizeUrgency analysis.urgencyLevel
        , aiSummary := analysis.aiSummary.getD ""
        , matchedKeywords := analysis.matchedKeywords.getD [] } :: tail
      else tail
    | none => tail

/-- The batch loop: per batch, call the AI (`.error` aborts the loop and
propagates), then `continue` — skipping just this batch — when the response
contains no JSON array or `JSON.parse` throws; otherwise merge the parsed
analyses and keep going. -/
def analyzeBatchesLoop (gen : Nat → Except String String)
    (jsonArrayMatch : String → Option String)
    (parsePostAnalyses : String → Except String (List PostAnalysis))
    (normalizeSentiment normalizeUrgency : String → String)
    (minRelevanceScore : Int) :
    Nat → List (List SocialPost) → Except String (List AnalyzedPost)
  | _, [] => .ok []
  | batchIdx, batch :: rest =>
    match gen batchIdx with
    | .error e => .error e
    | .ok responseText =>
      match analyzeBatchesLoop gen jsonArrayMatch parsePostAnalyses
          normalizeSentiment normalizeUrgency minRelevanceScore (batchIdx + 1) rest with
      | .error e => .error e
      | .ok tail =>
        match jsonArrayMatch responseText with
        | none => .ok tail
        | some matched =>
          match parsePostAnalyses matched with
          | .error _ => .ok tail
          | .ok analyzed =>
            .ok (mergeAnalyses normalizeSentiment normalizeUrgency minRelevanceScore
                  batch analyzed ++ tail)

/-- The sort order of the comparator
`(a, b) => b.relevanceScore - a.relevanceScore`: relevance, highest
first. -/
def relevanceGE (a b : AnalyzedPost) : Prop :=
  b.relevanceScore ≤ a.relevanceScore

instance : DecidableRel relevanceGE :=
  fun a b => inferInstanceAs (Decidable (b.relevanceScore ≤ a.relevanceScore))

instance : IsTotal AnalyzedPost relevanceGE :=
  ⟨fun a b => le_total b.relevanceScore a.relevanceScore⟩

instance : IsTrans AnalyzedPost relevanceGE :=
  ⟨fun _ _ _ h1 h2 => le_trans h2 h1⟩

/-- The urgency/relevance filter for `highPriorityPosts`:
`p.urgencyLevel === 'high' || p.relevanceScore >= 80`. -/
def isHighPriority (p : AnalyzedPost) : Bool :=
  p.urgencyLevel == "high" || decide (80 ≤ p.relevanceScore)

/-- The body of `socialAiAnalyzeNode.executor` inside its outer `try`.
The in-place `allAnalyzedPosts.sort((a, b) => b.relevanceScore -
a.relevanceScore)` is modelled as a stable comparator sort (insertion sort
with respect to `relevanceGE`, matching the stability JS guarantees); all
later reads of `allAnalyzedPosts` see the sorted array. -/
def socialAiAnalyzeBody (gen : Nat → Except String String)
    (jsonArrayMatch : String → Option String)
    (parsePostAnalyses : String → Except String (List PostAnalysis))
    (normalizeSentiment normalizeUrgency : String → String)
    (minRelevanceScore : Int) (batchSize : Nat)
    (input : SocialAiAnalyzeInput) (ctx : NodeExecutionContext) :
    Except String (NodeExecutionResult SocialAiAnalyzeOutput) :=
  match ctx.credentialFor "anthropic" "apiKey" with
  | none => .ok (.failure
      "Anthropic API key not configured. Please provide context.credentials.anthropic.apiKey.")
  | some _ =>
    let allPosts := input.twitterPosts.getD [] ++ input.redditPosts.getD []
      ++ input.linkedinPosts.getD [] ++ input.posts.getD []
    if allPosts.isEmpty then
      .ok (.success
        { analyzedPosts := [], highPriorityPosts := [], complaints := []
        , totalAnalyzed := 0, highPriorityCount := 0, complaintCount := 0
        , averageRelevance := 0 })
    else
      match analyzeBatchesLoop gen jsonArrayMatch parsePostAnalyses
          normalizeSentiment normalizeUrgency minRelevanceScore 0
          (chunkList batchSize allPosts) with
      | .error e => .error e
      | .ok allAnalyzedPosts =>
        let sorted := allAnalyzedPosts.insertionSort relevanceGE
        let highPriorityPosts := sorted.filter isHighPriority
        let complaints := sorted.filter (fun p => p.isComplaint)
        let averageRelevance :=
          if sorted.length = 0 then 0
          else jsRoundRatio (sorted.foldl (fun acc p => acc + p.relevanceScore) 0) sorted.length
        .ok (.success
          { analyzedPosts := sorted
          , highPriorityPosts := highPriorityPosts
          , complaints := complaints
          , totalAnalyzed := sorted.length
          , highPriorityCount := highPriorityPosts.length
          , complaintCount := complaints.length
          , averageRelevance := averageRelevance })

/-- `socialAiAnalyzeNode.executor`: the body wrapped in the outer
try/catch. -/
def socialAiAnalyzeExecutor (gen : Nat → Except String String)
    (jsonArrayMatch : String → Option String)
    (parsePostAnalyses : String → Except String (List PostAnalysis))
    (normalizeSentiment normalizeUrgency : String → String)
    (minRelevanceScore : Int) (batchSize : Nat)
    (input : SocialAiAnalyzeInput) (ctx : NodeExecutionContext) :
    Except String (NodeExecutionResult SocialAiAnalyzeOutput) :=
  match socialAiAnalyzeBody gen jsonArrayMatch parsePostAnalyses
      normalizeSentiment normalizeUrgency minRelevanceScore batchSize input ctx with
  | .ok r => .ok r
  | .error e => .ok (.failure e)

/-! ## Apollo search-contacts node
(`packages/nodes/src/integrations/apollo/search-contacts.ts`).

The two HTTP round-trips are oracles: `searchCall` is the outcome of
`searchApolloContacts`'s POST (`.error` = the thrown
`Apollo API error: ...`, `.ok` = the decoded body), `enrichCall` the
outcome of the n-th `enrichApolloContact` call (`.ok none` = a response
without a person).  The pure construction of the search request body from
the node input only shapes the request and is absorbed into
`searchCall`. -/

/-- `ApolloPerson` as read by the executor; `organization` keeps only the
`name` consulted by the fallback chain. -/
structure ApolloPerson where
  id : String
  first_name : String
  last_name : Option String
  last_name_obfuscated : Option String
  name : Option String
  email : Option String
  has_email : Option Bool
  title : String
  linkedin_url : Option String
  organization_name : Option String
  organizationName : Option String
  city : Option String
  state : Option String
  country : Option String
deriving Repr, DecidableEq

/-- `ApolloSearchResponse`: the `people` array, possibly absent. -/
structure ApolloSearchResponse where
  people : Option (List ApolloPerson)

/-- One contact of `SearchContactsOutput.contacts`. -/
structure EnrichedContact where
  id : String
  name : String
  firstName : String
  lastName : Option String
  email : String
  title : String
  company : String
  linkedinUrl : Option String
  location : Option String
deriving Repr, DecidableEq

/-- `SearchContactsOutput`. -/
structure SearchContactsOutput where
  contacts : List EnrichedContact
  totalFound : Nat

/-- `searchApolloContacts`: decode the response (`data.people || []`) and
keep only the people with `has_email === true` — the email itself must
still be revealed via enrichment. -/
def searchApolloContacts (searchCall : Except String ApolloSearchResponse) :
    Except String (List ApolloPerson) :=
  match searchCall with
  | .error e => .error e
  | .ok data => .ok ((data.people.getD []).filter (fun person => person.has_email == some true))

/-- The enrichment loop: a falsy `contact.id` is skipped without a call;
a throwing `enrichApolloContact` is swallowed by the per-contact catch; a
person is kept only when the enriched record carries a truthy email.  The
name/company/location fallbacks mirror the `||` chains of the source. -/
def enrichContactsLoop (enrichCall : Nat → Except String (Option ApolloPerson)) :
    Nat → List ApolloPerson → List EnrichedContact
  | _, [] => []
  | callIdx, contact :: rest =>
    if contact.id = "" then enrichContactsLoop enrichCall callIdx rest
    else
      match enrichCall callIdx with
      | .error _ => enrichContactsLoop enrichCall (callIdx + 1) rest
      | .ok none => enrichContactsLoop enrichCall (callIdx + 1) rest
      | .ok (some enriched) =>
        match enriched.email with
        | none => enrichContactsLoop enrichCall (callIdx + 1) rest
        | some email =>
          if email = "" then enrichContactsLoop enrichCall (callIdx + 1) rest
          else
            let lastName := jsOrStr enriched.last_name (jsOrStr enriched.last_name_obfuscated "")
            let fullName := jsOrStr enriched.name
              (let joined := (enriched.first_name ++ " " ++ lastName).trim
               if joined = "" then "Unknown" else joined)
            let company := jsOrStr enriched.organization_name
              (jsOrStr enriched.organizationName "Unknown")
            let locationParts :=
              ([enriched.city, enriched.state, enriched.country].filterMap id).filter
                (fun s => s != "")
            let locationJoined := String.intercalate ", " locationParts
            { id := enriched.id
            , name := fullName
            , firstName := enriched.first_name
            , lastName := if lastName = "" then none else some lastName
            , email := email
            , title := enriched.title
            , company := company
            , linkedinUrl := enriched.linkedin_url
            , location := if locationJoined = "" then none else some locationJoined }
              :: enrichContactsLoop enrichCall (callIdx + 1) rest

/-- The body of `searchContactsNode.executor` inside its outer `try`. -/
def searchContactsBody (searchCall : Except String ApolloSearchResponse)
    (enrichCall : Nat → Except String (Option ApolloPerson))
    (ctx : NodeExecutionContext) :
    Except String (NodeExecutionResult SearchContactsOutput) :=
  match ctx.credentialFor "apollo" "apiKey" with
  | none => .ok (.failure
      "Apollo API key not configured. Please provide context.credentials.apollo.apiKey.")
  | some _ =>
    match searchApolloContacts searchCall with
    | .error e => .error e
    | .ok results =>
      if results.isEmpty then
        .ok (.success { contacts := [], totalFound := 0 })
      else
        .ok (.success
          { contacts := enrichContactsLoop enrichCall 0 results
          , totalFound := results.length })

/-- `searchContactsNode.executor`: the body wrapped in the outer
try/catch. -/
def searchContactsExecutor (searchCall : Except String ApolloSearchResponse)
    (enrichCall : Nat → Except String (Option ApolloPerson))
    (ctx : NodeExecutionContext) :
    Except String (NodeExecutionResult SearchContactsOutput) :=
  match searchContactsBody searchCall enrichCall ctx with
  | .ok r => .ok r
  | .error e => .ok (.failure e)

/-! # Theorems -/

/-- **C2** (corrected).  The claim says *every* mock synthesizer produces
exactly two items per `Array(item)` node; the web playground's copy
produces exactly one.  Counterexample at `Array(String)`: the web
synthesizer yields a one-element array, not the two-element array the CLI
synthesizer yields. -/
theorem webArray_single_item_counterexample :
    generateFromDefWeb (.zArray .zString) = .vArr [.vStr "mock_string"]
    ∧ generateFromDef (.zArray .zString) = .vArr [.vStr "mock_string", .vStr "mock_string"]
    ∧ generateFromDefWeb (.zArray .zString)
        ≠ .vArr [generateFromDefWeb .zString, generateFromDefWeb .zString] := by
  refine ⟨rfl, rfl, ?_⟩
  simp [generateFromDefWeb]

/-- **C2** (amended).  For every `Array(item)` schema node, the CLI
playground's mock synthesis produces an array of exactly two synthesized
items, while the web playground's produces an array of exactly one
synthesized item. -/
theorem mock_array_item_counts (item : ZodDef) :
    generateFromDef (.zArray item) = .vArr [generateFromDef item, generateFromDef item]
    ∧ generateFromDefWeb (.zArray item) = .vArr [generateFromDefWeb item] :=
  ⟨rfl, rfl⟩

/-- **C5** (confirmed).  Field derivation on a non-`Object` root returns the
empty sequence (for both `extractFieldsFromSchema` and
`generatePromptsFromSchema`); on `Object {a: Optional<Number>, b: String}`
both return exactly two descriptors in declaration order `[a, b]`, with
`a.required = false` and `b.required = true`. -/
theorem deriveFields_object_root_and_example :
    (∀ (exampleValue : String → FieldType → Option (List String) → Value) (d : ZodDef),
        d.isObjectDef = false →
        extractFieldsFromSchema exampleValue d = [] ∧ generatePromptsFromSchema d "" = [])
    ∧ (∀ exampleValue,
        (extractFieldsFromSchema exampleValue
            (.zObject [("a", .zOptional .zNumber), ("b", .zString)])).map
          (fun f => (f.name, f.required)) = [("a", false), ("b", true)])
    ∧ ((generatePromptsFromSchema
          (.zObject [("a", .zOptional .zNumber), ("b", .zString)]) "").map
        (fun p => (p.name, p.required)) = [("a", false), ("b", true)]) := by
  refine ⟨?_, fun _ => rfl, rfl⟩
  intro exampleValue d hd
  cases d <;> simp_all [ZodDef.isObjectDef, extractFieldsFromSchema, generatePromptsFromSchema]

/-- Witness for the non-`Object` part of C5: a `String` root derives no
fields and no prompts. -/
theorem deriveFields_object_root_witness :
    extractFieldsFromSchema (fun _ _ _ => .vNull) .zString = []
    ∧ generatePromptsFromSchema .zString "" = [] :=
  deriveFields_object_root_and_example.1 (fun _ _ _ => .vNull) .zString rfl

/-- **C6** (confirmed).  `resolveNestedPath` walks the dotted path segment by
segment and never throws: any non-indexable intermediate value yields the
absent marker `undefined` immediately, `"a.b.c"` over
`{a: {b: {c: 42}}}` resolves to `42`, and over `{a: {}}` the walk
degrades to `undefined` rather than an exception. -/
theorem resolveNestedPath_total_and_examples :
    (∀ (current : Value) (part : String) (rest : List String),
        isIndexable current = false → walkPath (part :: rest) current = .vUndefined)
    ∧ resolveNestedPath [("a", .vObj [("b", .vObj [("c", .vNum 42)])])] "a.b.c" = .vNum 42
    ∧ resolveNestedPath [("a", .vObj [])] "a.b.c" = .vUndefined := by
  refine ⟨?_, rfl, rfl⟩
  intro current part rest hc
  simp [walkPath, hc]

/-- Witness for the non-indexable part of C6: indexing through a string
value returns the absent marker. -/
theorem resolveNestedPath_total_witness :
    walkPath ["b"] (.vStr "not an object") = .vUndefined :=
  resolveNestedPath_total_and_examples.1 (.vStr "not an object") "b" [] rfl

/-- **C7** (confirmed; `fetchWithRetry` is modelled from the spec, its
implementation file not being among the sources).  With `maxRetries = 3`
against an endpoint that always answers 500, exactly 4 physical attempts
are made and the call fails with the typed error carrying the last status;
against an endpoint answering 404 the first attempt's non-ok handle is
returned immediately, after exactly 1 attempt. -/
theorem fetchWithRetry_attempt_counts :
    (∀ (attempts : Nat → AttemptOutcome) (backoffMs timeoutMs : Nat),
        (∀ i, attempts i = .response 500) →
        fetchWithRetry attempts ⟨3, backoffMs, timeoutMs⟩ = (.error ⟨"HTTP 500"⟩, 4))
    ∧ (∀ (attempts : Nat → AttemptOutcome) (maxRetries backoffMs timeoutMs : Nat),
        attempts 0 = .response 404 →
        fetchWithRetry attempts ⟨maxRetries, backoffMs, timeoutMs⟩ = (.ok ⟨404, false⟩, 1)) := by
  constructor
  · intro attempts backoffMs timeoutMs h
    show fetchAttemptLoop attempts 0 3 = _
    simp [fetchAttemptLoop, h, retryEligible, lastAttemptError]
    rfl
  · intro attempts maxRetries backoffMs timeoutMs h
    show fetchAttemptLoop attempts 0 maxRetries = _
    rw [fetchAttemptLoop.eq_def]
    simp [h, retryEligible]

/-- Witness for C7 at concrete attempt oracles: an always-500 endpoint and
an endpoint answering 404 on the first attempt. -/
theorem fetchWithRetry_attempt_counts_witness :
    fetchWithRetry (fun _ => .response 500) ⟨3, 1000, 30000⟩ = (.error ⟨"HTTP 500"⟩, 4)
    ∧ fetchWithRetry (fun _ => .response 404) ⟨3, 1000, 30000⟩ = (.ok ⟨404, false⟩, 1) :=
  ⟨fetchWithRetry_attempt_counts.1 (fun _ => .response 500) 1000 30000 (fun _ => rfl),
   fetchWithRetry_attempt_counts.2 (fun _ => .response 404) 3 1000 30000 rfl⟩

/-- **C1** (corrected).  The claim says mock synthesis and field derivation
unwrap `Optional`/`Default`/`Nullable` chains identically.  Counterexample
at a `Nullable(Number)` field: mock synthesis unwraps the `Nullable` and
synthesizes the number placeholder `42`, while both field-derivation
traversals leave the `Nullable` wrapper in place, classifying the field as
plain text *and* marking it required. -/
theorem nullable_unwrap_divergence_counterexample :
    mockSynthesisUnwrap (.zNullable .zNumber) = .zNumber
    ∧ fieldDerivationUnwrap (.zNullable .zNumber) = .zNullable .zNumber
    ∧ mockSynthesisUnwrap (.zNullable .zNumber) ≠ fieldDerivationUnwrap (.zNullable .zNumber)
    ∧ generateFromDef (.zNullable .zNumber) = .vNum 42
    ∧ (extractFieldsFromSchema (fun _ _ _ => .vNull)
          (.zObject [("score", .zNullable .zNumber)])).map
        (fun f => (f.type', f.required)) = [(.text, true)]
    ∧ (generatePromptsFromSchema (.zObject [("score", .zNullable .zNumber)]) "").map
        (fun p => (p.ptype, p.required)) = [(.input, true)] := by
  refine ⟨rfl, rfl, ?_, rfl, rfl, rfl⟩
  simp [mockSynthesisUnwrap, fieldDerivationUnwrap]

/-- **C1** (amended).  The two traversals only agree on wrapper chains of at
most one `Optional` or `Default` layer over a wrapper-free inner type: for
those, both inspect the same inner type, a wrapped field is derived as not
required and a bare field as required, and both traversals use the
`Default` wrapper's stored value (mock synthesis returns it, field
derivation reports it as the field default).  Mock synthesis additionally
unwraps `Nullable` and arbitrarily deep chains, which field derivation
does not. -/
theorem wrapper_unwrap_agreement (innerType : ZodDef) (v : Value)
    (h : wrapperFree innerType = true) :
    fieldDerivationUnwrap (.zOptional innerType) = mockSynthesisUnwrap (.zOptional innerType)
    ∧ fieldDerivationUnwrap (.zDefault innerType v) = innerType
    ∧ fieldDerivationUnwrap innerType = mockSynthesisUnwrap innerType
    ∧ generateFromDef (.zOptional innerType) = generateFromDef innerType
    ∧ generateFromDef (.zDefault innerType v) = v
    ∧ (∀ exampleValue key,
        (extractField exampleValue key (.zOptional innerType)).required = false
        ∧ (extractField exampleValue key (.zDefault innerType v)).required = false
        ∧ (extractField exampleValue key (.zDefault innerType v)).default = v
        ∧ (extractField exampleValue key innerType).required = true) := by
  cases innerType <;>
    simp_all [wrapperFree, fieldDerivationUnwrap, mockSynthesisUnwrap, generateFromDef,
      extractField]

/-- Witness for C1 (amended) at `inner = Number`, default `7`: both
traversals surface the stored default of a `Default(Number, 7)` field. -/
theorem wrapper_unwrap_agreement_witness :
    generateFromDef (.zDefault .zNumber (.vNum 7)) = .vNum 7
    ∧ (extractField (fun _ _ _ => .vNull) "limit" (.zDefault .zNumber (.vNum 7))).default
        = .vNum 7 :=
  ⟨(wrapper_unwrap_agreement .zNumber (.vNum 7) rfl).2.2.2.2.1,
   ((wrapper_unwrap_agreement .zNumber (.vNum 7) rfl).2.2.2.2.2
      (fun _ _ _ => .vNull) "limit").2.2.1⟩

/-- **C3** (corrected).  The claim says `generateMockOutput` is deterministic
also on node types served by the named-override table.  The CLI
playground rebuilds that table per call, stamping `reddit_monitor` and
`twitter_monitor` posts with the *current* time: two calls at different
times differ. -/
theorem mock_override_timestamp_counterexample :
    generateMockOutput "2024-01-01T00:00:00.000Z" "reddit_monitor" .zString
      ≠ generateMockOutput "2024-01-02T00:00:00.000Z" "reddit_monitor" .zString := by
  simp [generateMockOutput, customMocks, List.lookup]

/-- **C3** (amended).  Mock synthesis is deterministic for every schema (the
generic traversal `generateFromDef` is a pure function of the schema), and
`generateMockOutput` is call-time independent — hence deterministic — for
every node type except `reddit_monitor` and `twitter_monitor`, whose
override payloads embed the invocation timestamp.  (The web playground's
`getMockOutput` reads a table fixed at module load and is deterministic
within a process.) -/
theorem generateMockOutput_deterministic_off_timestamp_overrides
    (now now' nodeType : String) (outputSchema : ZodDef)
    (h1 : nodeType ≠ "reddit_monitor") (h2 : nodeType ≠ "twitter_monitor") :
    generateMockOutput now nodeType outputSchema
      = generateMockOutput now' nodeType outputSchema := by
  by_cases ha : nodeType = "conditional"
  · subst ha; rfl
  by_cases hb : nodeType = "end"
  · subst hb; rfl
  by_cases hc : nodeType = "delay"
  · subst hc; rfl
  by_cases hd : nodeType = "map"
  · subst hd; rfl
  by_cases he : nodeType = "filter"
  · subst he; rfl
  by_cases hf : nodeType = "http_request"
  · subst hf; rfl
  by_cases hg : nodeType = "search_contacts"
  · subst hg; rfl
  by_cases hh : nodeType = "social_keyword_generator"
  · subst hh; rfl
  by_cases hi : nodeType = "draft_emails"
  · subst hi; rfl
  have ea : (nodeType == "conditional") = false := beq_eq_false_iff_ne.mpr ha
  have eb : (nodeType == "end") = false := beq_eq_false_iff_ne.mpr hb
  have ec : (nodeType == "delay") = false := beq_eq_false_iff_ne.mpr hc
  have ed : (nodeType == "map") = false := beq_eq_false_iff_ne.mpr hd
  have ee : (nodeType == "filter") = false := beq_eq_false_iff_ne.mpr he
  have ef : (nodeType == "http_request") = false := beq_eq_false_iff_ne.mpr hf
  have eg : (nodeType == "search_contacts") = false := beq_eq_false_iff_ne.mpr hg
  have eh : (nodeType == "social_keyword_generator") = false := beq_eq_false_iff_ne.mpr hh
  have ei : (nodeType == "draft_emails") = false := beq_eq_false_iff_ne.mpr hi
  have e1 : (nodeType == "reddit_monitor") = false := beq_eq_false_iff_ne.mpr h1
  have e2 : (nodeType == "twitter_monitor") = false := beq_eq_false_iff_ne.mpr h2
  simp [generateMockOutput, customMocks, List.lookup,
    ea, eb, ec, ed, ee, ef, eg, eh, ei, e1, e2]

/-- Witness for C3 (amended): two `generateMockOutput` calls at different
times agree on the `search_contacts` override. -/
theorem generateMockOutput_deterministic_witness :
    generateMockOutput "2024-01-01T00:00:00.000Z" "search_contacts" .zString
      = generateMockOutput "2024-01-02T00:00:00.000Z" "search_contacts" .zString :=
  generateMockOutput_deterministic_off_timestamp_overrides
    "2024-01-01T00:00:00.000Z" "2024-01-02T00:00:00.000Z" "search_contacts" .zString
    (by decide) (by decide)

/-- **C4** (confirmed).  No exception crosses the executor boundary: for
every input, execution context and oracle behavior — including throwing
network calls and unparseable responses — each embedded built-in executor
resolves to a `Result` (`Except.ok`); the outer `try/catch` of each
executor converts every internal throw into a failure `Result`. -/
theorem executors_resolve_to_result
    (gen1 : Nat → Except String String) (jsonObjectMatch : String → Option String)
    (parseKeywordJson : String → Except String ParsedKeywordResponse)
    (input1 : SocialKeywordGeneratorInput)
    (gen2 : Nat → Except String String) (cleanEmailBody cleanSubjectLine : String → String)
    (now : Nat) (input2 : DraftEmailsInput)
    (gen3 : Nat → Except String String) (jsonArrayMatch : String → Option String)
    (parsePostAnalyses : String → Except String (List PostAnalysis))
    (normalizeSentiment normalizeUrgency : String → String)
    (minRelevanceScore : Int) (batchSize : Nat) (input3 : SocialAiAnalyzeInput)
    (searchCall : Except String ApolloSearchResponse)
    (enrichCall : Nat → Except String (Option ApolloPerson))
    (ctx : NodeExecutionContext) :
    (∃ r, socialKeywordGeneratorExecutor gen1 jsonObjectMatch parseKeywordJson input1 ctx
        = .ok r)
    ∧ (∃ r, draftEmailsExecutor gen2 cleanEmailBody cleanSubjectLine now input2 ctx = .ok r)
    ∧ (∃ r, socialAiAnalyzeExecutor gen3 jsonArrayMatch parsePostAnalyses
          normalizeSentiment normalizeUrgency minRelevanceScore batchSize input3 ctx = .ok r)
    ∧ (∃ r, searchContactsExecutor searchCall enrichCall ctx = .ok r) := by
  refine ⟨?_, ?_, ?_, ?_⟩
  · cases hb : socialKeywordGeneratorBody gen1 jsonObjectMatch parseKeywordJson input1 ctx with
    | ok r => exact ⟨r, by simp [socialKeywordGeneratorExecutor, hb]⟩
    | error e => exact ⟨.failure e, by simp [socialKeywordGeneratorExecutor, hb]⟩
  · cases hb : draftEmailsBody gen2 cleanEmailBody cleanSubjectLine now input2 ctx with
    | ok r => exact ⟨r, by simp [draftEmailsExecutor, hb]⟩
    | error e => exact ⟨.failure e, by simp [draftEmailsExecutor, hb]⟩
  · cases hb : socialAiAnalyzeBody gen3 jsonArrayMatch parsePostAnalyses
        normalizeSentiment normalizeUrgency minRelevanceScore batchSize input3 ctx with
    | ok r => exact ⟨r, by simp [socialAiAnalyzeExecutor, hb]⟩
    | error e => exact ⟨.failure e, by simp [socialAiAnalyzeExecutor, hb]⟩
  · cases hb : searchContactsBody searchCall enrichCall ctx with
    | ok r => exact ⟨r, by simp [searchContactsExecutor, hb]⟩
    | error e => exact ⟨.failure e, by simp [searchContactsExecutor, hb]⟩

/-- Every contact produced by the enrichment loop carries the non-empty
email that let it through the `enriched?.email` truthiness guard. -/
theorem enrichContactsLoop_email_nonempty
    (enrichCall : Nat → Except String (Option ApolloPerson)) :
    ∀ (people : List ApolloPerson) (callIdx : Nat) (c : EnrichedContact),
      c ∈ enrichContactsLoop enrichCall callIdx people → c.email ≠ "" := by
  intro people
  induction people with
  | nil => intro callIdx c hc; simp [enrichContactsLoop] at hc
  | cons contact rest ih =>
    intro callIdx c hc
    simp only [enrichContactsLoop] at hc
    split at hc
    · exact ih _ _ hc
    · split at hc
      · exact ih _ _ hc
      · exact ih _ _ hc
      · split at hc
        · exact ih _ _ hc
        · split at hc
          · exact ih _ _ hc
          · rename_i hemail
            rcases List.mem_cons.mp hc with rfl | hmem
            · simpa using hemail
            · exact ih _ _ hmem

/-- The enrichment loop pushes at most one contact per search result. -/
theorem enrichContactsLoop_length_le
    (enrichCall : Nat → Except String (Option ApolloPerson)) :
    ∀ (people : List ApolloPerson) (callIdx : Nat),
      (enrichContactsLoop enrichCall callIdx people).length ≤ people.length := by
  intro people
  induction people with
  | nil => intro callIdx; simp [enrichContactsLoop]
  | cons contact rest ih =>
    intro callIdx
    simp only [enrichContactsLoop]
    split
    · exact (ih callIdx).trans (Nat.le_succ _)
    · split
      · exact (ih _).trans (Nat.le_succ _)
      · exact (ih _).trans (Nat.le_succ _)
      · split
        · exact (ih _).trans (Nat.le_succ _)
        · split
          · exact (ih _).trans (Nat.le_succ _)
          · simpa using Nat.succ_le_succ (ih _)

/-- **C10** (confirmed).  On success, every contact in the
`search_contacts` output has a non-empty email, `totalFound` equals the
number of pre-enrichment search results with `has_email === true`, and
consequently `contacts.length ≤ totalFound`. -/
theorem searchContacts_email_invariants
    (searchCall : Except String ApolloSearchResponse)
    (enrichCall : Nat → Except String (Option ApolloPerson))
    (ctx : NodeExecutionContext) (out : SearchContactsOutput)
    (resp : ApolloSearchResponse)
    (hs : searchCall = .ok resp)
    (h : searchContactsExecutor searchCall enrichCall ctx = .ok (.success out)) :
    (∀ c ∈ out.contacts, c.email ≠ "")
    ∧ out.totalFound
        = ((resp.people.getD []).filter (fun p => p.has_email == some true)).length
    ∧ out.contacts.length ≤ out.totalFound := by
  subst hs
  have hbody : searchContactsBody (.ok resp) enrichCall ctx = .ok (.success out) := by
    unfold searchContactsExecutor at h
    split at h
    · rename_i r heq
      rw [heq]
      exact h
    · rename_i e heq
      simp at h
  unfold searchContactsBody at hbody
  cases hcred : ctx.credentialFor "apollo" "apiKey" with
  | none => rw [hcred] at hbody; simp at hbody
  | some key =>
    rw [hcred] at hbody
    simp only [searchApolloContacts] at hbody
    by_cases hEmpty :
        ((resp.people.getD []).filter (fun p => p.has_email == some true)).isEmpty
    · rw [if_pos hEmpty] at hbody
      simp only [Except.ok.injEq, NodeExecutionResult.success.injEq] at hbody
      subst hbody
      refine ⟨by simp, ?_, by simp⟩
      simp [List.isEmpty_iff.mp hEmpty]
    · rw [if_neg hEmpty] at hbody
      simp only [Except.ok.injEq, NodeExecutionResult.success.injEq] at hbody
      subst hbody
      refine ⟨?_, rfl, ?_⟩
      · intro c hc
        exact enrichContactsLoop_email_nonempty enrichCall _ _ c hc
      · exact enrichContactsLoop_length_le enrichCall _ _

/-- Witness for C10: a one-person search result (`has_email: true`) whose
enrichment reveals an email; the executor succeeds with one contact and
`totalFound = 1`. -/
theorem searchContacts_email_invariants_witness :
    (∀ c ∈ ([{ id := "id1", name := "John Doe", firstName := "John", lastName := none
             , email := "john@example.com", title := "CTO", company := "Acme"
             , linkedinUrl := none, location := none }] : List EnrichedContact),
        c.email ≠ "")
    ∧ (1 : Nat)
        = (((some [({ id := "id1", first_name := "John", last_name := none
                    , last_name_obfuscated := none, name := some "John Doe"
                    , email := none, has_email := some true, title := "CTO"
                    , linkedin_url := none, organization_name := some "Acme"
                    , organizationName := none, city := none, state := none
                    , country := none } : ApolloPerson)] : Option (List ApolloPerson)).getD
              []).filter (fun p => p.has_email == some true)).length
    ∧ (1 : Nat) ≤ 1 := by
  have happ := searchContacts_email_invariants
    (.ok { people := some [{ id := "id1", first_name := "John", last_name := none
                           , last_name_obfuscated := none, name := some "John Doe"
                           , email := none, has_email := some true, title := "CTO"
                           , linkedin_url := none, organization_name := some "Acme"
                           , organizationName := none, city := none, state := none
                           , country := none }] })
    (fun _ => .ok (some { id := "id1", first_name := "John", last_name := none
                        , last_name_obfuscated := none, name := some "John Doe"
                        , email := some "john@example.com", has_email := some true
                        , title := "CTO", linkedin_url := none
                        , organization_name := some "Acme", organizationName := none
                        , city := none, state := none, country := none }))
    { userId := "u", workflowExecutionId := "w", vars := []
    , credentials := [("apollo", [("apiKey", "k")])] }
    { contacts := [{ id := "id1", name := "John Doe", firstName := "John"
                   , lastName := none, email := "john@example.com", title := "CTO"
                   , company := "Acme", linkedinUrl := none, location := none }]
    , totalFound := 1 }
    { people := some [{ id := "id1", first_name := "John", last_name := none
                      , last_name_obfuscated := none, name := some "John Doe"
                      , email := none, has_email := some true, title := "CTO"
                      , linkedin_url := none, organization_name := some "Acme"
                      , organizationName := none, city := none, state := none
                      , country := none }] }
    rfl rfl
  exact happ

/-- Every post the merge loop keeps passed the `MIN_RELEVANCE_SCORE`
guard. -/
theorem mergeAnalyses_min_score (normalizeSentiment normalizeUrgency : String → String)
    (minRelevanceScore : Int) (batch : List SocialPost) :
    ∀ (analyses : List PostAnalysis) (p : AnalyzedPost),
      p ∈ mergeAnalyses normalizeSentiment normalizeUrgency minRelevanceScore batch analyses →
      minRelevanceScore ≤ p.relevanceScore := by
  intro analyses
  induction analyses with
  | nil => intro p hp; simp [mergeAnalyses] at hp
  | cons a rest ih =>
    intro p hp
    simp only [mergeAnalyses] at hp
    split at hp
    · split at hp
      · rename_i hscore
        rcases List.mem_cons.mp hp with rfl | hmem
        · exact hscore
        · exact ih p hmem
      · exact ih p hp
    · exact ih p hp

/-- Every post accumulated across batches passed the
`MIN_RELEVANCE_SCORE` guard. -/
theorem analyzeBatchesLoop_min_score (gen : Nat → Except String String)
    (jsonArrayMatch : String → Option String)
    (parsePostAnalyses : String → Except String (List PostAnalysis))
    (normalizeSentiment normalizeUrgency : String → String) (minRelevanceScore : Int) :
    ∀ (batches : List (List SocialPost)) (batchIdx : Nat) (l : List AnalyzedPost),
      analyzeBatchesLoop gen jsonArrayMatch parsePostAnalyses
          normalizeSentiment normalizeUrgency minRelevanceScore batchIdx batches = .ok l →
      ∀ p ∈ l, minRelevanceScore ≤ p.relevanceScore := by
  intro batches
  induction batches with
  | nil =>
    intro batchIdx l hl p hp
    simp only [analyzeBatchesLoop, Except.ok.injEq] at hl
    subst hl
    simp at hp
  | cons batch rest ih =>
    intro batchIdx l hl p hp
    simp only [analyzeBatchesLoop] at hl
    split at hl
    · exact absurd hl (by simp)
    · split at hl
      · exact absurd hl (by simp)
      · rename_i tail heq
        split at hl
        · simp only [Except.ok.injEq] at hl
          subst hl
          exact ih _ _ heq p hp
        · split at hl
          · simp only [Except.ok.injEq] at hl
            subst hl
            exact ih _ _ heq p hp
          · simp only [Except.ok.injEq] at hl
            subst hl
            rcases List.mem_append.mp hp with hmem | hmem
            · exact mergeAnalyses_min_score normalizeSentiment normalizeUrgency
                minRelevanceScore batch _ p hmem
            · exact ih _ _ heq p hmem

/-- **C9** (confirmed).  On success the `social_ai_analyze` output
satisfies: every analyzed post reaches the minimum relevance score, the
analyzed posts are sorted by non-increasing relevance, the three counters
equal the lengths of the lists they summarize, and the high-priority and
complaint lists are exactly the corresponding filters of the analyzed
posts. -/
theorem socialAiAnalyze_output_invariants
    (gen : Nat → Except String String) (jsonArrayMatch : String → Option String)
    (parsePostAnalyses : String → Except String (List PostAnalysis))
    (normalizeSentiment normalizeUrgency : String → String)
    (minRelevanceScore : Int) (batchSize : Nat)
    (input : SocialAiAnalyzeInput) (ctx : NodeExecutionContext)
    (out : SocialAiAnalyzeOutput)
    (h : socialAiAnalyzeExecutor gen jsonArrayMatch parsePostAnalyses
          normalizeSentiment normalizeUrgency minRelevanceScore batchSize input ctx
        = .ok (.success out)) :
    (∀ p ∈ out.analyzedPosts, minRelevanceScore ≤ p.relevanceScore)
    ∧ List.Sorted relevanceGE out.analyzedPosts
    ∧ out.totalAnalyzed = out.analyzedPosts.length
    ∧ out.highPriorityCount = out.highPriorityPosts.length
    ∧ out.complaintCount = out.complaints.length
    ∧ out.highPriorityPosts = out.analyzedPosts.filter isHighPriority
    ∧ out.complaints = out.analyzedPosts.filter (fun p => p.isComplaint) := by
  have hbody : socialAiAnalyzeBody gen jsonArrayMatch parsePostAnalyses
      normalizeSentiment normalizeUrgency minRelevanceScore batchSize input ctx
      = .ok (.success out) := by
    unfold socialAiAnalyzeExecutor at h
    split at h
    · rename_i r heq
      rw [heq]
      exact h
    · rename_i e heq
      simp at h
  unfold socialAiAnalyzeBody at hbody
  cases hcred : ctx.credentialFor "anthropic" "apiKey" with
  | none => rw [hcred] at hbody; simp at hbody
  | some key =>
    rw [hcred] at hbody
    dsimp only at hbody
    split at hbody
    · simp only [Except.ok.injEq, NodeExecutionResult.success.injEq] at hbody
      subst hbody
      refine ⟨by simp, List.sorted_nil, rfl, rfl, rfl, rfl, rfl⟩
    · split at hbody
      · exact absurd hbody (by simp)
      · rename_i allAnalyzedPosts heq
        simp only [Except.ok.injEq, NodeExecutionResult.success.injEq] at hbody
        subst hbody
        refine ⟨?_, ?_, rfl, rfl, rfl, rfl, rfl⟩
        · intro p hp
          exact analyzeBatchesLoop_min_score gen jsonArrayMatch parsePostAnalyses
            normalizeSentiment normalizeUrgency minRelevanceScore _ _ _ heq p
            ((List.perm_insertionSort relevanceGE allAnalyzedPosts).subset hp)
        · exact List.sorted_insertionSort relevanceGE allAnalyzedPosts

/-- Witness for C9: one post, one batch, one parsed analysis with score 85
and urgency `high`; the executor succeeds and the output satisfies every
invariant at that concrete run. -/
theorem socialAiAnalyze_output_invariants_witness :
    (∀ p ∈ ([{ post := { id := "p1", platform := "twitter", content := "hello" }
             , relevanceScore := 85, sentiment := "negative", isComplaint := true
             , urgencyLevel := "high", aiSummary := "summary"
             , matchedKeywords := ["k"] }] : List AnalyzedPost),
        (40 : Int) ≤ p.relevanceScore)
    ∧ List.Sorted relevanceGE
        [{ post := { id := "p1", platform := "twitter", content := "hello" }
         , relevanceScore := 85, sentiment := "negative", isComplaint := true
         , urgencyLevel := "high", aiSummary := "summary", matchedKeywords := ["k"] }]
    ∧ (1 : Nat) = 1 ∧ (1 : Nat) = 1 ∧ (1 : Nat) = 1 := by
  have happ := socialAiAnalyze_output_invariants
    (fun _ => .ok "resp") (fun _ => some "arr") (fun _ => .ok
      [{ id := "p1", relevanceScore := 85, sentiment := "negative", isComplaint := true
       , urgencyLevel := "high", aiSummary := some "summary"
       , matchedKeywords := some ["k"] }])
    (fun s => s) (fun s => s) 40 10
    { twitterPosts := none, redditPosts := none, linkedinPosts := none
    , posts := some [{ id := "p1", platform := "twitter", content := "hello" }]
    , topic := "topic", userIntent := "intent" }
    { userId := "u", workflowExecutionId := "w", vars := []
    , credentials := [("anthropic", [("apiKey", "k")])] }
    { analyzedPosts :=
        [{ post := { id := "p1", platform := "twitter", content := "hello" }
         , relevanceScore := 85, sentiment := "negative", isComplaint := true
         , urgencyLevel := "high", aiSummary := "summary", matchedKeywords := ["k"] }]
    , highPriorityPosts :=
        [{ post := { id := "p1", platform := "twitter", content := "hello" }
         , relevanceScore := 85, sentiment := "negative", isComplaint := true
         , urgencyLevel := "high", aiSummary := "summary", matchedKeywords := ["k"] }]
    , complaints :=
        [{ post := { id := "p1", platform := "twitter", content := "hello" }
         , relevanceScore := 85, sentiment := "negative", isComplaint := true
         , urgencyLevel := "high", aiSummary := "summary", matchedKeywords := ["k"] }]
    , totalAnalyzed := 1, highPriorityCount := 1, complaintCount := 1
    , averageRelevance := 85 }
    rfl
  exact ⟨happ.1, happ.2.1, happ.2.2.1, happ.2.2.2.1, happ.2.2.2.2.1⟩

/-- Shape of a successful `social_ai_analyze` run: once the API key is
present, the combined post list is non-empty and the batch loop completes
with accumulated posts `l`, the executor succeeds and reports the sorted
`l` with its length. -/
theorem socialAiAnalyzeExecutor_success_form (gen : Nat → Except String String)
    (jsonArrayMatch : String → Option String)
    (parsePostAnalyses : String → Except String (List PostAnalysis))
    (normalizeSentiment normalizeUrgency : String → String)
    (minRelevanceScore : Int) (batchSize : Nat)
    (input : SocialAiAnalyzeInput) (ctx : NodeExecutionContext) (k : String)
    (l : List AnalyzedPost)
    (hk : ctx.credentialFor "anthropic" "apiKey" = some k)
    (hne : (input.twitterPosts.getD [] ++ input.redditPosts.getD []
        ++ input.linkedinPosts.getD [] ++ input.posts.getD []).isEmpty = false)
    (hloop : analyzeBatchesLoop gen jsonArrayMatch parsePostAnalyses
        normalizeSentiment normalizeUrgency minRelevanceScore 0
        (chunkList batchSize (input.twitterPosts.getD [] ++ input.redditPosts.getD []
          ++ input.linkedinPosts.getD [] ++ input.posts.getD [])) = .ok l) :
    ∃ out, socialAiAnalyzeExecutor gen jsonArrayMatch parsePostAnalyses
          normalizeSentiment normalizeUrgency minRelevanceScore batchSize input ctx
        = .ok (.success out)
      ∧ out.analyzedPosts = l.insertionSort relevanceGE
      ∧ out.totalAnalyzed = (l.insertionSort relevanceGE).length := by
  unfold socialAiAnalyzeExecutor socialAiAnalyzeBody
  rw [hk]
  dsimp only
  simp only [hne, Bool.false_eq_true, if_false, hloop]
  exact ⟨_, rfl, rfl, rfl⟩

/-- **C8** (confirmed).  A failure affecting a single unit of work is
skipped without aborting the execution: (1) once its API key and sender
name are present, `draft_emails` always resolves to a success `Result`,
whatever the drafting calls do; (2) with two contacts of which the first
contact's drafting call throws, exactly that contact is skipped and the
success output contains the second contact's draft; (3) in
`social_ai_analyze`, a batch whose AI response contains no parseable JSON
array is skipped while the next batch's results are still returned in a
success `Result`. -/
theorem per_unit_failures_are_skipped :
    (∀ (gen : Nat → Except String String)
        (cleanEmailBody cleanSubjectLine : String → String) (now : Nat)
        (input : DraftEmailsInput) (ctx : NodeExecutionContext) (k sn : String),
        ctx.credentialFor "anthropic" "apiKey" = some k →
        ctx.senderNameVar = some sn →
        ∃ out, draftEmailsExecutor gen cleanEmailBody cleanSubjectLine now input ctx
          = .ok (.success out))
    ∧ (∀ (gen : Nat → Except String String)
        (cleanEmailBody cleanSubjectLine : String → String) (now : Nat)
        (c1 c2 : Contact) (pd : String) (et : Option String)
        (ctx : NodeExecutionContext) (k sn e rawBody rawSubject : String),
        ctx.credentialFor "anthropic" "apiKey" = some k →
        ctx.senderNameVar = some sn →
        c1.email ≠ "" → c2.email ≠ "" →
        gen 0 = .error e → gen 1 = .ok rawBody → gen 2 = .ok rawSubject →
        draftEmailsExecutor gen cleanEmailBody cleanSubjectLine now
            { contacts := [c1, c2], productDescription := pd, emailTemplate := et } ctx
          = .ok (.success
              { emails := [{ id := "draft-" ++ c2.id ++ "-" ++ toString now
                           , toEmail := c2.email, toName := c2.name
                           , toCompany := c2.company.getD ""
                           , toTitle := c2.title.getD ""
                           , subject := cleanSubjectLine rawSubject
                           , body := cleanEmailBody rawBody, status := "draft" }]
              , draftedCount := 1 }))
    ∧ (∀ (gen : Nat → Except String String) (jsonArrayMatch : String → Option String)
        (parsePostAnalyses : String → Except String (List PostAnalysis))
        (normalizeSentiment normalizeUrgency : String → String)
        (minRelevanceScore : Int) (p1 p2 : SocialPost) (topic intent : String)
        (ctx : NodeExecutionContext) (k r1 r2 m : String) (a : PostAnalysis),
        ctx.credentialFor "anthropic" "apiKey" = some k →
        gen 0 = .ok r1 → jsonArrayMatch r1 = none →
        gen 1 = .ok r2 → jsonArrayMatch r2 = some m →
        parsePostAnalyses m = .ok [a] →
        a.id = p2.id → minRelevanceScore ≤ a.relevanceScore →
        ∃ out, socialAiAnalyzeExecutor gen jsonArrayMatch parsePostAnalyses
              normalizeSentiment normalizeUrgency minRelevanceScore 1
              { twitterPosts := none, redditPosts := none, linkedinPosts := none
              , posts := some [p1, p2], topic := topic, userIntent := intent } ctx
            = .ok (.success out)
          ∧ out.analyzedPosts
              = [{ post := p2, relevanceScore := a.relevanceScore
                 , sentiment := normalizeSentiment a.sentiment
                 , isComplaint := a.isComplaint
                 , urgencyLevel := normalizeUrgency a.urgencyLevel
                 , aiSummary := a.aiSummary.getD ""
                 , matchedKeywords := a.matchedKeywords.getD [] }]
          ∧ out.totalAnalyzed = 1) := by
  refine ⟨?_, ?_, ?_⟩
  · intro gen cleanEmailBody cleanSubjectLine now input ctx k sn hk hsn
    refine ⟨{ emails := draftContactsLoop gen cleanEmailBody cleanSubjectLine now 0
                input.contacts
            , draftedCount := (draftContactsLoop gen cleanEmailBody cleanSubjectLine now 0
                input.contacts).length }, ?_⟩
    unfold draftEmailsExecutor draftEmailsBody
    rw [hk, hsn]
  · intro gen cleanEmailBody cleanSubjectLine now c1 c2 pd et ctx k sn e rawBody
      rawSubject hk hsn h1 h2 hg0 hg1 hg2
    unfold draftEmailsExecutor draftEmailsBody
    rw [hk, hsn]
    simp [draftContactsLoop, h1, h2, hg0, hg1, hg2]
  · intro gen jsonArrayMatch parsePostAnalyses normalizeSentiment normalizeUrgency
      minRelevanceScore p1 p2 topic intent ctx k r1 r2 m a hk hg0 hj1 hg1 hj2 hpp
      hid hscore
    have hfind : (p2.id == a.id) = true := by rw [hid]; exact beq_self_eq_true p2.id
    have hloop : analyzeBatchesLoop gen jsonArrayMatch parsePostAnalyses
        normalizeSentiment normalizeUrgency minRelevanceScore 0
        (chunkList 1
          ((none : Option (List SocialPost)).getD []
            ++ (none : Option (List SocialPost)).getD []
            ++ (none : Option (List SocialPost)).getD []
            ++ (some [p1, p2] : Option (List SocialPost)).getD []))
        = .ok [{ post := p2, relevanceScore := a.relevanceScore
               , sentiment := normalizeSentiment a.sentiment
               , isComplaint := a.isComplaint
               , urgencyLevel := normalizeUrgency a.urgencyLevel
               , aiSummary := a.aiSummary.getD ""
               , matchedKeywords := a.matchedKeywords.getD [] }] := by
      simp [chunkList, chunkListAux, analyzeBatchesLoop, mergeAnalyses, List.find?,
        hg0, hj1, hg1, hj2, hpp, hfind, hscore]
    obtain ⟨out, hexec, hposts, htotal⟩ := socialAiAnalyzeExecutor_success_form
      gen jsonArrayMatch parsePostAnalyses normalizeSentiment normalizeUrgency
      minRelevanceScore 1
      { twitterPosts := none, redditPosts := none, linkedinPosts := none
      , posts := some [p1, p2], topic := topic, userIntent := intent }
      ctx k _ hk rfl hloop
    exact ⟨out, hexec, by rw [hposts]; rfl, by rw [htotal]; rfl⟩

/-- Witness for C8 at concrete runs: an empty contact list still succeeds;
with two contacts and a first drafting call that throws, only the second
contact's draft is returned; with two one-post batches of which the first
yields no JSON array, only the second batch's post is analyzed. -/
theorem per_unit_failures_are_skipped_witness :
    (∃ out, draftEmailsExecutor (fun _ => .error "down") (fun s => s) (fun s => s) 5
        { contacts := [], productDescription := "pd", emailTemplate := none }
        { userId := "u", workflowExecutionId := "w"
        , vars := [("senderName", .vStr "Ann")]
        , credentials := [("anthropic", [("apiKey", "k")])] }
      = .ok (.success out))
    ∧ draftEmailsExecutor
        (fun n => if n = 0 then .error "boom" else if n = 1 then .ok "body" else .ok "subject")
        (fun s => s) (fun s => s) 5
        { contacts := [ { id := "c1", name := "Al", email := "a@x.com"
                        , title := none, company := none }
                      , { id := "c2", name := "Bo", email := "b@x.com"
                        , title := none, company := none } ]
        , productDescription := "pd", emailTemplate := none }
        { userId := "u", workflowExecutionId := "w"
        , vars := [("senderName", .vStr "Ann")]
        , credentials := [("anthropic", [("apiKey", "k")])] }
      = .ok (.success
          { emails := [{ id := "draft-" ++ "c2" ++ "-" ++ toString 5
                       , toEmail := "b@x.com", toName := "Bo", toCompany := ""
                       , toTitle := "", subject := "subject", body := "body"
                       , status := "draft" }]
          , draftedCount := 1 })
    ∧ (∃ out, socialAiAnalyzeExecutor
          (fun n => if n = 0 then .ok "r1" else .ok "r2")
          (fun s => if s = "r2" then some "m" else none)
          (fun _ => .ok [{ id := "p2", relevanceScore := 50, sentiment := "neutral"
                         , isComplaint := false, urgencyLevel := "low"
                         , aiSummary := none, matchedKeywords := none }])
          (fun s => s) (fun s => s) 40 1
          { twitterPosts := none, redditPosts := none, linkedinPosts := none
          , posts := some [ { id := "p1", platform := "twitter", content := "x" }
                          , { id := "p2", platform := "reddit", content := "y" } ]
          , topic := "topic", userIntent := "intent" }
          { userId := "u", workflowExecutionId := "w", vars := []
          , credentials := [("anthropic", [("apiKey", "k")])] }
        = .ok (.success out)
      ∧ out.analyzedPosts
          = [{ post := { id := "p2", platform := "reddit", content := "y" }
             , relevanceScore := 50, sentiment := "neutral", isComplaint := false
             , urgencyLevel := "low", aiSummary := "", matchedKeywords := [] }]
      ∧ out.totalAnalyzed = 1) :=
  ⟨per_unit_failures_are_skipped.1 (fun _ => .error "down") (fun s => s) (fun s => s) 5
      { contacts := [], productDescription := "pd", emailTemplate := none }
      { userId := "u", workflowExecutionId := "w"
      , vars := [("senderName", .vStr "Ann")]
      , credentials := [("anthropic", [("apiKey", "k")])] } "k" "Ann" rfl rfl,
   per_unit_failures_are_skipped.2.1
      (fun n => if n = 0 then .error "boom" else if n = 1 then .ok "body" else .ok "subject")
      (fun s => s) (fun s => s) 5
      { id := "c1", name := "Al", email := "a@x.com", title := none, company := none }
      { id := "c2", name := "Bo", email := "b@x.com", title := none, company := none }
      "pd" none
      { userId := "u", workflowExecutionId := "w"
      , vars := [("senderName", .vStr "Ann")]
      , credentials := [("anthropic", [("apiKey", "k")])] }
      "k" "Ann" "boom" "body" "subject" rfl rfl (by decide) (by decide) rfl rfl rfl,
   per_unit_failures_are_skipped.2.2
      (fun n => if n = 0 then .ok "r1" else .ok "r2")
      (fun s => if s = "r2" then some "m" else none)
      (fun _ => .ok [{ id := "p2", relevanceScore := 50, sentiment := "neutral"
                     , isComplaint := false, urgencyLevel := "low"
                     , aiSummary := none, matchedKeywords := none }])
      (fun s => s) (fun s => s) 40
      { id := "p1", platform := "twitter", content := "x" }
      { id := "p2", platform := "reddit", content := "y" }
      "topic" "intent"
      { userId := "u", workflowExecutionId := "w", vars := []
      , credentials := [("anthropic", [("apiKey", "k")])] }
      "k" "r1" "r2" "m"
      { id := "p2", relevanceScore := 50, sentiment := "neutral", isComplaint := false
      , urgencyLevel := "low", aiSummary := none, matchedKeywords := none }
      rfl rfl rfl rfl rfl rfl rfl (by decide)⟩

end JamNodes
